import Mathlib

/-!
Verification of the nutrition-aggregation and reporting engine of the
chatgpt-calorietracker repository (src/services/nutrition.ts, plus the
insight generation in the weekly-report tool handler).

Embedding conventions:
* JavaScript numbers are modelled by `ℚ`; `Math.round` (round half toward
  positive infinity) is Mathlib's `round` (`round x = ⌊x + 1/2⌋`).
* Optional record fields (`fiber?`, `sugar?`, `sodium?`, optional goals)
  are `Option ℚ`; JavaScript truthiness tests (`x ? a : b`, `x || 0`,
  `if (x)`) on such a field are `truthy` / `orZero` below: `undefined`
  and `0` are both falsy.
* ISO `YYYY-MM-DD` date strings are modelled by their Gregorian day
  number (`ℤ`); `isoDate y m d` computes it.  Equality, chronological
  comparison and the day-by-day iteration of the weekly loop
  (`currentDate.setDate(currentDate.getDate() + 1)`) become `=`, `≤` and
  `+ 1` on day numbers.
* JavaScript `Map` (insertion-ordered) grouping is an association list
  built by `groupByKey`; `Map.get(k) || []` is `mapGetD`.
-/

/-- JavaScript `Math.round`: round half toward positive infinity, which is
exactly Mathlib's `round` on `ℚ` (`round x = ⌊x + 1/2⌋`). -/
def mathRound (q : ℚ) : ℤ := round q

/-- The source's 1-decimal-place rounding: `Math.round(x * 10) / 10`. -/
def round1dp (q : ℚ) : ℚ := ((mathRound (q * 10) : ℤ) : ℚ) / 10

/-- JavaScript truthiness of an optional numeric field: `undefined` and
`0` are falsy, every other number is truthy. -/
def truthy (o : Option ℚ) : Bool :=
  match o with
  | none => false
  | some q => decide (q ≠ 0)

/-- JavaScript `x || 0` on an optional numeric field (also equals
`Option.getD o 0`, since `0 || 0` is `0`). -/
def orZero (o : Option ℚ) : ℚ :=
  match o with
  | none => 0
  | some q => q

/-- `Nutrition` record (src/models/food.ts): calories, protein, carbs and
fat are required; fiber, sugar and sodium are optional. -/
structure Nutrition where
  calories : ℚ
  protein : ℚ
  carbs : ℚ
  fat : ℚ
  fiber : Option ℚ := none
  sugar : Option ℚ := none
  sodium : Option ℚ := none
deriving DecidableEq

/-- `MealFoodEntry` record (src/models/food.ts): a food entry in a logged
meal, with `nutrition` already scaled to the actual amount consumed. -/
structure MealFoodEntry where
  fdcId : ℤ
  description : String
  servings : ℚ
  servingSize : ℚ
  servingSizeUnit : String
  nutrition : Nutrition
deriving DecidableEq

/-- `Meal` record (src/models/meal.ts).  `date` is the day number of the
meal's ISO date string; `mealType` is the enum string
(breakfast / lunch / dinner / snack). -/
structure Meal where
  id : String
  userId : String
  date : ℤ
  mealType : String
  foods : List MealFoodEntry
  totals : Nutrition
  notes : Option String := none
  createdAt : String
  updatedAt : Option String := none
deriving DecidableEq

/-- The goals argument of `calculateDailySummary` / `calculateWeeklyReport`:
`{ dailyCalories: number; protein?: number; carbs?: number; fat?: number }`. -/
structure Goals where
  dailyCalories : ℚ
  protein : Option ℚ := none
  carbs : Option ℚ := none
  fat : Option ℚ := none
deriving DecidableEq

/-- One `{ current, goal, percentage }` triple of the goal progress. -/
structure Progress where
  current : ℚ
  goal : ℚ
  percentage : ℤ
deriving DecidableEq

/-- The `goalProgress` object of a `DailySummary`: calories progress is
always present, the macro entries only when the matching goal is set. -/
structure GoalProgress where
  calories : Progress
  protein : Option Progress := none
  carbs : Option Progress := none
  fat : Option Progress := none
deriving DecidableEq

/-- One `{ mealType, calories, count }` entry of `DailySummary.meals`. -/
structure MealTypeSummary where
  mealType : String
  calories : ℚ
  count : ℕ
deriving DecidableEq

/-- `DailySummary` (src/services/nutrition.ts). -/
structure DailySummary where
  date : ℤ
  totals : Nutrition
  meals : List MealTypeSummary
  goalProgress : Option GoalProgress := none
deriving DecidableEq

/-- `WeeklyReport` (src/services/nutrition.ts). -/
structure WeeklyReport where
  startDate : ℤ
  endDate : ℤ
  dailySummaries : List DailySummary
  averages : Nutrition
  totalMeals : ℕ
deriving DecidableEq

/-- One iteration of the accumulation loop of `calculateTotalNutrition`:
required fields add directly, optional fields add as
`(totals.f || 0) + (food.nutrition.f || 0)` and become present. -/
def addFood (t : Nutrition) (f : MealFoodEntry) : Nutrition :=
  { calories := t.calories + f.nutrition.calories
    protein := t.protein + f.nutrition.protein
    carbs := t.carbs + f.nutrition.carbs
    fat := t.fat + f.nutrition.fat
    fiber := some (orZero t.fiber + orZero f.nutrition.fiber)
    sugar := some (orZero t.sugar + orZero f.nutrition.sugar)
    sodium := some (orZero t.sodium + orZero f.nutrition.sodium) }

/-- `calculateTotalNutrition` (src/services/nutrition.ts): accumulate all
food entries starting from an all-zero record (optional fields
initialised to `0`, hence present), then round every field. -/
def calculateTotalNutrition (foods : List MealFoodEntry) : Nutrition :=
  let totals := foods.foldl addFood
    { calories := 0, protein := 0, carbs := 0, fat := 0
      fiber := some 0, sugar := some 0, sodium := some 0 }
  { calories := ((mathRound totals.calories : ℤ) : ℚ)
    protein := round1dp totals.protein
    carbs := round1dp totals.carbs
    fat := round1dp totals.fat
    fiber := some (round1dp (orZero totals.fiber))
    sugar := some (round1dp (orZero totals.sugar))
    sodium := some ((mathRound (orZero totals.sodium) : ℤ) : ℚ) }

/-- `scaleNutrition` (src/services/nutrition.ts): required fields scale
and round; an optional field scales only when truthy
(`nutrition.f ? round(...) : undefined`), so a present-but-zero field
comes out absent. -/
def scaleNutrition (nutrition : Nutrition) (servings : ℚ) : Nutrition :=
  { calories := ((mathRound (nutrition.calories * servings) : ℤ) : ℚ)
    protein := round1dp (nutrition.protein * servings)
    carbs := round1dp (nutrition.carbs * servings)
    fat := round1dp (nutrition.fat * servings)
    fiber := if truthy nutrition.fiber then
        some (round1dp (orZero nutrition.fiber * servings)) else none
    sugar := if truthy nutrition.sugar then
        some (round1dp (orZero nutrition.sugar * servings)) else none
    sodium := if truthy nutrition.sodium then
        some ((mathRound (orZero nutrition.sodium * servings) : ℤ) : ℚ) else none }

/-- `aggregateMealsNutrition` (src/services/nutrition.ts): flatten all
foods of all meals and total them. -/
def aggregateMealsNutrition (meals : List Meal) : Nutrition :=
  calculateTotalNutrition (meals.flatMap (fun m => m.foods))

/-- Insertion-ordered-map update, as JavaScript
`const existing = map.get(k) || []; existing.push(x); map.set(k, existing)`:
an existing key keeps its position and gets the element appended; a new
key is appended at the end. -/
def mapUpsert {κ α : Type} [BEq κ] (key : α → κ)
    (acc : List (κ × List α)) (x : α) : List (κ × List α) :=
  if acc.any (fun p => p.1 == key x) then
    acc.map (fun p => if p.1 == key x then (p.1, p.2 ++ [x]) else p)
  else
    acc ++ [(key x, [x])]

/-- Grouping a list into a JavaScript `Map` by a key, entries in
first-seen key order. -/
def groupByKey {κ α : Type} [BEq κ] (key : α → κ) (l : List α) :
    List (κ × List α) :=
  l.foldl (mapUpsert key) []

/-- JavaScript `map.get(k) || []` on the association-list map. -/
def mapGetD {κ α : Type} [BEq κ] (acc : List (κ × List α)) (k : κ) :
    List α :=
  match acc.find? (fun p => p.1 == k) with
  | some p => p.2
  | none => []

/-- `calculateDailySummary` (src/services/nutrition.ts): totals are
recomputed from the foods, the per-meal-type entries use the stored
`meal.totals.calories`, and goal progress is added when goals are given
(macro entries only for truthy goal fields). -/
def calculateDailySummary (meals : List Meal) (date : ℤ)
    (goals : Option Goals := none) : DailySummary :=
  let totals := aggregateMealsNutrition meals
  let mealSummaries := (groupByKey (fun m => m.mealType) meals).map
    (fun p => MealTypeSummary.mk p.1
      (p.2.foldl (fun s m => s + m.totals.calories) 0) p.2.length)
  match goals with
  | none => { date := date, totals := totals, meals := mealSummaries }
  | some g =>
    { date := date
      totals := totals
      meals := mealSummaries
      goalProgress := some
        { calories :=
            { current := totals.calories
              goal := g.dailyCalories
              percentage := mathRound (totals.calories / g.dailyCalories * 100) }
          protein := if truthy g.protein then
              some { current := totals.protein
                     goal := orZero g.protein
                     percentage := mathRound (totals.protein / orZero g.protein * 100) }
            else none
          carbs := if truthy g.carbs then
              some { current := totals.carbs
                     goal := orZero g.carbs
                     percentage := mathRound (totals.carbs / orZero g.carbs * 100) }
            else none
          fat := if truthy g.fat then
              some { current := totals.fat
                     goal := orZero g.fat
                     percentage := mathRound (totals.fat / orZero g.fat * 100) }
            else none } }

/-- The `while (currentDate <= end)` loop of `calculateWeeklyReport`,
with explicit fuel.  `calculateWeeklyReport` passes exactly the number of
days of the range as fuel, so the fuel never runs out before the loop
condition fails. -/
def weekLoop (goals : Option Goals) (byDate : List (ℤ × List Meal))
    (e : ℤ) : ℕ → ℤ → List DailySummary
  | 0, _ => []
  | fuel + 1, cur =>
    if cur ≤ e then
      calculateDailySummary (mapGetD byDate cur) cur goals ::
        weekLoop goals byDate e fuel (cur + 1)
    else []

/-- The all-zero `averages` value of the `daysWithMeals == 0` branch. -/
def zeroAverages : Nutrition :=
  { calories := 0, protein := 0, carbs := 0, fat := 0 }

/-- The `daysWithMeals` count of `calculateWeeklyReport`:
`dailySummaries.filter((d) => d.meals.length > 0).length`. -/
def daysWithMealsOf (summaries : List DailySummary) : ℕ :=
  (summaries.filter (fun d => decide (0 < d.meals.length))).length

/-- The `averages` computation of `calculateWeeklyReport`: divide every
field of the aggregated nutrition by `daysWithMeals` and round; an
optional field is emitted only when truthy in the aggregate
(`totalNutrition.f ? round(...) : undefined`). -/
def weeklyAverages (totalNutrition : Nutrition) (daysWithMeals : ℕ) :
    Nutrition :=
  if 0 < daysWithMeals then
    { calories := ((mathRound (totalNutrition.calories / daysWithMeals) : ℤ) : ℚ)
      protein := round1dp (totalNutrition.protein / daysWithMeals)
      carbs := round1dp (totalNutrition.carbs / daysWithMeals)
      fat := round1dp (totalNutrition.fat / daysWithMeals)
      fiber := if truthy totalNutrition.fiber then
          some (round1dp (orZero totalNutrition.fiber / daysWithMeals)) else none
      sugar := if truthy totalNutrition.sugar then
          some (round1dp (orZero totalNutrition.sugar / daysWithMeals)) else none
      sodium := if truthy totalNutrition.sodium then
          some ((mathRound (orZero totalNutrition.sodium / daysWithMeals) : ℤ) : ℚ)
        else none }
  else zeroAverages

/-- `calculateWeeklyReport` (src/services/nutrition.ts): group meals by
date, emit one `DailySummary` per day of the range, then average the
aggregate of all input meals over the days having meals. -/
def calculateWeeklyReport (meals : List Meal) (startDate endDate : ℤ)
    (goals : Option Goals := none) : WeeklyReport :=
  let byDate := groupByKey (fun m => m.date) meals
  let dailySummaries :=
    weekLoop goals byDate endDate (endDate + 1 - startDate).toNat startDate
  { startDate := startDate
    endDate := endDate
    dailySummaries := dailySummaries
    averages := weeklyAverages (aggregateMealsNutrition meals)
      (daysWithMealsOf dailySummaries)
    totalMeals := meals.length }

/-- Gregorian leap-year test. -/
def isLeap (y : ℕ) : Bool :=
  (y % 4 == 0 && y % 100 != 0) || y % 400 == 0

/-- Days in a month of the proleptic Gregorian calendar. -/
def daysInMonth (y m : ℕ) : ℕ :=
  if m = 2 then (if isLeap y then 29 else 28)
  else if m = 4 ∨ m = 6 ∨ m = 9 ∨ m = 11 then 30
  else 31

/-- Days before the first of month `m` within year `y`. -/
def daysBeforeMonth (y : ℕ) : ℕ → ℕ
  | 0 => 0
  | 1 => 0
  | m + 1 => daysBeforeMonth y m + daysInMonth y m

/-- Day number of the ISO date string `y-m-d`: days elapsed since the
epoch 0001-01-01 of the proleptic Gregorian calendar.  Distinct valid
ISO dates get distinct day numbers, in chronological order. -/
def isoDate (y m d : ℕ) : ℤ :=
  ((365 * (y - 1) + (y - 1) / 4 - (y - 1) / 100 + (y - 1) / 400
    + daysBeforeMonth y m + (d - 1) : ℕ) : ℤ)

/-- JavaScript `Math.max(...values)` on a nonempty list (the source only
evaluates it under a `length >= 3` guard). -/
def maxList : List ℚ → ℚ
  | [] => 0
  | x :: xs => xs.foldl max x

/-- JavaScript `Math.min(...values)` on a nonempty list. -/
def minList : List ℚ → ℚ
  | [] => 0
  | x :: xs => xs.foldl min x

/-- The "logged on N of 7 days" reminder of `generateInsights`. -/
def reminderMsg (daysWithMeals : ℕ) : String :=
  "You logged meals on " ++ toString daysWithMeals ++
    " of 7 days. Try to log every day for better tracking."

/-- The under-target calorie message of `generateInsights`. -/
def belowGoalMsg (avgCalories : ℚ) (caloriePercentage : ℤ) : String :=
  "Your average intake (" ++ toString avgCalories ++ " cal) is " ++
    toString (100 - caloriePercentage) ++ "% below your goal."

/-- The over-target calorie message of `generateInsights`. -/
def aboveGoalMsg (avgCalories : ℚ) (caloriePercentage : ℤ) : String :=
  "Your average intake (" ++ toString avgCalories ++ " cal) is " ++
    toString (caloriePercentage - 100) ++ "% above your goal."

/-- The on-target calorie message of `generateInsights`. -/
def onTargetMsg (dailyCalories : ℚ) : String :=
  "Great job! Your average intake is within 20% of your " ++
    toString dailyCalories ++ " cal goal."

/-- The consistency warning of `generateInsights`. -/
def varianceMsg (variance : ℚ) : String :=
  "Your daily calories varied by " ++ toString variance ++
    " cal this week. More consistency may help reach your goals."

/-- `generateInsights` (src/tools/get-weekly-report.ts): a tracked-days
reminder when fewer than 7 days have meals, exactly one calorie message
chosen by the rounded percent of goal, and a consistency warning when at
least 3 days have meals and their calorie spread exceeds 1000. -/
def generateInsights (report : WeeklyReport) (goals : Goals) : List String :=
  let daysWithMeals := daysWithMealsOf report.dailySummaries
  let insights1 : List String :=
    if daysWithMeals < 7 then [reminderMsg daysWithMeals] else []
  let avgCalories := report.averages.calories
  let caloriePercentage : ℤ := mathRound (avgCalories / goals.dailyCalories * 100)
  let insights2 : List String :=
    if caloriePercentage < 80 then [belowGoalMsg avgCalories caloriePercentage]
    else if caloriePercentage > 120 then [aboveGoalMsg avgCalories caloriePercentage]
    else [onTargetMsg goals.dailyCalories]
  let calorieValues :=
    (report.dailySummaries.filter (fun d => decide (0 < d.meals.length))).map
      (fun d => d.totals.calories)
  let insights3 : List String :=
    if 3 ≤ calorieValues.length then
      if 1000 < maxList calorieValues - minList calorieValues then
        [varianceMsg (maxList calorieValues - minList calorieValues)]
      else []
    else []
  insights1 ++ insights2 ++ insights3

/-- First occurrences of the elements of `l`, in first-seen order: the
key order of a JavaScript `Map` filled from `l`. -/
def firstSeenKeys {κ : Type} [BEq κ] (l : List κ) : List κ :=
  l.foldl (fun acc k => if acc.contains k then acc else acc ++ [k]) []

theorem mapGetD_mapUpsert {κ α : Type} [BEq κ] [LawfulBEq κ] (key : α → κ)
    (acc : List (κ × List α)) (x : α) (d : κ) :
    mapGetD (mapUpsert key acc x) d =
      mapGetD acc d ++ (if key x == d then [x] else []) := by
  unfold mapUpsert
  by_cases hany : acc.any (fun p => p.1 == key x)
  · rw [if_pos hany]
    unfold mapGetD
    rw [List.find?_map]
    have hcomp : ((fun p : κ × List α => p.1 == d) ∘
        (fun p : κ × List α => if p.1 == key x then (p.1, p.2 ++ [x]) else p)) =
        (fun p : κ × List α => p.1 == d) := by
      funext p
      by_cases hpk : p.1 == key x <;> simp [hpk]
    rw [hcomp]
    cases hfind : acc.find? (fun p => p.1 == d) with
    | none =>
      rw [List.find?_eq_none] at hfind
      rcases List.any_eq_true.mp hany with ⟨p, hp, hpk⟩
      by_cases hkd : key x == d
      · exact absurd ((beq_iff_eq.mpr ((eq_of_beq hpk).trans (eq_of_beq hkd)))) (hfind p hp)
      · simp [hkd]
    | some p =>
      have hpd : (p.1 == d) = true := by
        have h2 := List.find?_some hfind
        simpa using h2
      by_cases hkd : key x == d
      · have : p.1 == key x := beq_iff_eq.mpr ((eq_of_beq hpd).trans (eq_of_beq hkd).symm)
        simp [this, hkd]
      · have : ¬(p.1 == key x) := by
          intro hc
          exact hkd (beq_iff_eq.mpr (((eq_of_beq hc).symm.trans (eq_of_beq hpd))))
        simp [this, hkd]
  · rw [if_neg hany]
    unfold mapGetD
    rw [List.find?_append]
    cases hfind : acc.find? (fun p => p.1 == d) with
    | none =>
      by_cases hkd : key x == d <;> simp [Option.orElse, hkd]
    | some p =>
      have hpd : (p.1 == d) = true := by
        have h2 := List.find?_some hfind
        simpa using h2
      have hkd : ¬(key x == d) := by
        intro hc
        apply hany
        exact List.any_eq_true.mpr ⟨p, List.mem_of_find?_eq_some hfind,
          beq_iff_eq.mpr ((eq_of_beq hpd).trans (eq_of_beq hc).symm)⟩
      simp [Option.orElse, hkd]

theorem foldl_mapUpsert_getD {κ α : Type} [BEq κ] [LawfulBEq κ] (key : α → κ)
    (d : κ) : ∀ (l : List α) (acc : List (κ × List α)),
    mapGetD (l.foldl (mapUpsert key) acc) d =
      mapGetD acc d ++ l.filter (fun x => key x == d)
  | [], acc => by simp
  | x :: l, acc => by
    rw [List.foldl_cons, foldl_mapUpsert_getD key d l, mapGetD_mapUpsert,
      List.filter_cons]
    cases h : (key x == d) <;> simp [h]

theorem mapGetD_groupByKey {κ α : Type} [BEq κ] [LawfulBEq κ] (key : α → κ)
    (l : List α) (d : κ) :
    mapGetD (groupByKey key l) d = l.filter (fun x => key x == d) := by
  have h := foldl_mapUpsert_getD key d l []
  simpa [groupByKey, mapGetD] using h

theorem firstSeenKeys_concat {κ : Type} [BEq κ] (l : List κ) (t : κ) :
    firstSeenKeys (l ++ [t]) =
      if (firstSeenKeys l).contains t then firstSeenKeys l
      else firstSeenKeys l ++ [t] := by
  unfold firstSeenKeys
  rw [List.foldl_append]
  rfl

theorem mem_firstSeenKeys {κ : Type} [BEq κ] [LawfulBEq κ] (l : List κ) :
    ∀ a : κ, a ∈ firstSeenKeys l ↔ a ∈ l := by
  induction l using List.reverseRecOn with
  | nil =>
    intro a
    simp [firstSeenKeys]
  | append_singleton l t ih =>
    intro a
    rw [firstSeenKeys_concat]
    by_cases h : (firstSeenKeys l).contains t
    · rw [if_pos h]
      have ht : t ∈ l := (ih t).mp (by simpa using h)
      constructor
      · intro ha
        exact List.mem_append_left _ ((ih a).mp ha)
      · intro ha
        rcases List.mem_append.mp ha with h1 | h1
        · exact (ih a).mpr h1
        · have : a = t := by simpa using h1
          subst this
          exact (ih a).mpr ht
    · rw [if_neg h]
      simp [ih]

theorem groupByKey_concat {κ α : Type} [BEq κ] (key : α → κ) (l : List α)
    (x : α) :
    groupByKey key (l ++ [x]) = mapUpsert key (groupByKey key l) x := by
  unfold groupByKey
  rw [List.foldl_append]
  rfl

theorem contains_iff_mem {κ : Type} [BEq κ] [LawfulBEq κ] (l : List κ)
    (a : κ) : l.contains a = true ↔ a ∈ l := by
  simp [List.contains, List.elem_iff]

theorem groupByKey_eq {κ α : Type} [BEq κ] [LawfulBEq κ] (key : α → κ)
    (l : List α) :
    groupByKey key l = (firstSeenKeys (l.map key)).map
      (fun k => (k, l.filter (fun y => key y == k))) := by
  induction l using List.reverseRecOn with
  | nil => simp [groupByKey, firstSeenKeys]
  | append_singleton l x ih =>
    rw [groupByKey_concat, ih, List.map_append, List.map_singleton,
      firstSeenKeys_concat]
    by_cases hmem : key x ∈ firstSeenKeys (List.map key l)
    · have hcond : ((firstSeenKeys (List.map key l)).map
          (fun k => (k, l.filter (fun y => key y == k)))).any
            (fun p => p.1 == key x) = true := by
        rw [List.any_eq_true]
        exact ⟨(key x, l.filter (fun y => key y == key x)),
          List.mem_map_of_mem _ hmem, by simp⟩
      have hcont : (firstSeenKeys (List.map key l)).contains (key x) = true :=
        (contains_iff_mem _ _).mpr hmem
      rw [mapUpsert, if_pos hcond, if_pos hcont, List.map_map]
      apply List.map_congr_left
      intro k hk
      by_cases hkx : k = key x
      · subst hkx
        simp [List.filter_append]
      · have h1 : (k == key x) = false := beq_eq_false_iff_ne.mpr hkx
        have h2 : (key x == k) = false := beq_eq_false_iff_ne.mpr (Ne.symm hkx)
        simp [List.filter_append, h1, h2]
    · have hcond : ((firstSeenKeys (List.map key l)).map
          (fun k => (k, l.filter (fun y => key y == k)))).any
            (fun p => p.1 == key x) = false := by
        rw [List.any_eq_false]
        intro p hp
        rcases List.mem_map.mp hp with ⟨k, hk, rfl⟩
        simp only [beq_iff_eq]
        intro hc
        exact hmem (hc ▸ hk)
      have hcont : (firstSeenKeys (List.map key l)).contains (key x) = false := by
        rw [Bool.eq_false_iff]
        intro hc
        exact hmem ((contains_iff_mem _ _).mp hc)
      rw [mapUpsert, if_neg (by rw [hcond]; exact Bool.false_ne_true),
        if_neg (by rw [hcont]; exact Bool.false_ne_true),
        List.map_append, List.map_singleton]
      congr 1
      · apply List.map_congr_left
        intro k hk
        have h2 : (key x == k) = false := by
          rw [beq_eq_false_iff_ne]
          intro hc
          exact hmem (hc ▸ hk)
        simp [List.filter_append, h2]
      · have hfilter : l.filter (fun y => key y == key x) = [] := by
          rw [List.filter_eq_nil_iff]
          intro y hy
          simp only [beq_iff_eq]
          intro hc
          exact hmem ((mem_firstSeenKeys _ _).mpr (hc ▸ List.mem_map_of_mem _ hy))
        simp [List.filter_append, hfilter]

theorem foldl_addFood (foods : List MealFoodEntry) :
    ∀ t : Nutrition, t.fiber = some (orZero t.fiber) →
      t.sugar = some (orZero t.sugar) → t.sodium = some (orZero t.sodium) →
    foods.foldl addFood t =
      { calories := t.calories + (foods.map (fun f => f.nutrition.calories)).sum
        protein := t.protein + (foods.map (fun f => f.nutrition.protein)).sum
        carbs := t.carbs + (foods.map (fun f => f.nutrition.carbs)).sum
        fat := t.fat + (foods.map (fun f => f.nutrition.fat)).sum
        fiber := some (orZero t.fiber +
          (foods.map (fun f => orZero f.nutrition.fiber)).sum)
        sugar := some (orZero t.sugar +
          (foods.map (fun f => orZero f.nutrition.sugar)).sum)
        sodium := some (orZero t.sodium +
          (foods.map (fun f => orZero f.nutrition.sodium)).sum) } := by
  induction foods with
  | nil =>
    intro t h5 h6 h7
    simp only [List.foldl_nil, List.map_nil, List.sum_nil, add_zero]
    rw [← h5, ← h6, ← h7]
  | cons f foods ih =>
    intro t h5 h6 h7
    rw [List.foldl_cons, ih (addFood t f) rfl rfl rfl]
    simp only [addFood, orZero, List.map_cons, List.sum_cons]
    congr 1 <;> ring_nf

theorem calculateTotalNutrition_eq (foods : List MealFoodEntry) :
    calculateTotalNutrition foods =
      { calories := ((mathRound ((foods.map (fun f => f.nutrition.calories)).sum) : ℤ) : ℚ)
        protein := round1dp ((foods.map (fun f => f.nutrition.protein)).sum)
        carbs := round1dp ((foods.map (fun f => f.nutrition.carbs)).sum)
        fat := round1dp ((foods.map (fun f => f.nutrition.fat)).sum)
        fiber := some (round1dp ((foods.map (fun f => orZero f.nutrition.fiber)).sum))
        sugar := some (round1dp ((foods.map (fun f => orZero f.nutrition.sugar)).sum))
        sodium := some ((mathRound ((foods.map (fun f => orZero f.nutrition.sodium)).sum) : ℤ) : ℚ) } := by
  unfold calculateTotalNutrition
  rw [foldl_addFood foods _ rfl rfl rfl]
  simp [orZero, zero_add]

theorem weekLoop_eq (g : Option Goals) (byDate : List (ℤ × List Meal))
    (e : ℤ) : ∀ (n : ℕ) (cur : ℤ), (e + 1 - cur).toNat = n →
      weekLoop g byDate e n cur = (List.range n).map
        (fun i : ℕ => calculateDailySummary (mapGetD byDate (cur + (i : ℤ)))
          (cur + (i : ℤ)) g)
  | 0, cur, _ => by simp [weekLoop]
  | n + 1, cur, h => by
    have hle : cur ≤ e := by omega
    rw [weekLoop, if_pos hle, weekLoop_eq g byDate e n (cur + 1) (by omega),
      List.range_succ_eq_map, List.map_cons, List.map_map]
    congr 1
    · norm_num
    · apply List.map_congr_left
      intro i _
      simp only [Function.comp_apply, Nat.succ_eq_add_one]
      have harg : cur + ((i : ℤ) + 1) = cur + 1 + (i : ℤ) := by ring
      push_cast
      rw [harg]

theorem calculateWeeklyReport_dailySummaries (meals : List Meal)
    (s e : ℤ) (g : Option Goals) :
    (calculateWeeklyReport meals s e g).dailySummaries =
      (List.range (e + 1 - s).toNat).map
        (fun i : ℕ => calculateDailySummary
          (meals.filter (fun m => m.date == s + (i : ℤ))) (s + (i : ℤ)) g) := by
  unfold calculateWeeklyReport
  simp only []
  rw [weekLoop_eq g _ e _ s rfl]
  apply List.map_congr_left
  intro i _
  rw [mapGetD_groupByKey]

theorem calculateDailySummary_date (ms : List Meal) (d : ℤ)
    (g : Option Goals) : (calculateDailySummary ms d g).date = d := by
  cases g <;> rfl

theorem calculateDailySummary_totals (ms : List Meal) (d : ℤ)
    (g : Option Goals) :
    (calculateDailySummary ms d g).totals = aggregateMealsNutrition ms := by
  cases g <;> rfl

theorem calculateDailySummary_meals (ms : List Meal) (d : ℤ)
    (g : Option Goals) :
    (calculateDailySummary ms d g).meals =
      (groupByKey (fun m => m.mealType) ms).map
        (fun p => MealTypeSummary.mk p.1
          (p.2.foldl (fun s m => s + m.totals.calories) 0) p.2.length) := by
  cases g <;> rfl

theorem firstSeenKeys_eq_nil_iff {κ : Type} [BEq κ] [LawfulBEq κ]
    (l : List κ) : firstSeenKeys l = [] ↔ l = [] := by
  constructor
  · intro h
    rw [List.eq_nil_iff_forall_not_mem]
    intro a ha
    have := (mem_firstSeenKeys l a).mpr ha
    rw [h] at this
    exact absurd this (List.not_mem_nil a)
  · intro h
    subst h
    rfl

theorem calculateDailySummary_meals_length_pos (ms : List Meal) (d : ℤ)
    (g : Option Goals) :
    (0 < (calculateDailySummary ms d g).meals.length) ↔ ms ≠ [] := by
  rw [calculateDailySummary_meals, groupByKey_eq, List.length_map,
    List.length_map, List.length_pos]
  constructor
  · intro h hms
    subst hms
    exact h rfl
  · intro h hc
    exact h (List.map_eq_nil_iff.mp ((firstSeenKeys_eq_nil_iff _).mp hc))

/-- All present fields of a nutrient vector are non-negative (the data
model invariant of the spec). -/
def NutNonneg (v : Nutrition) : Prop :=
  0 ≤ v.calories ∧ 0 ≤ v.protein ∧ 0 ≤ v.carbs ∧ 0 ≤ v.fat ∧
    0 ≤ orZero v.fiber ∧ 0 ≤ orZero v.sugar ∧ 0 ≤ orZero v.sodium

/-- Wrap a nutrient vector as a one-serving food entry. -/
def mkEntry (v : Nutrition) : MealFoodEntry :=
  { fdcId := 0, description := "food", servings := 1, servingSize := 100,
    servingSizeUnit := "g", nutrition := v }

/-- Build a meal fixture. -/
def mkMeal (id : String) (date : ℤ) (mealType : String)
    (foods : List MealFoodEntry) (totals : Nutrition) : Meal :=
  { id := id, userId := "user-1", date := date, mealType := mealType,
    foods := foods, totals := totals, createdAt := "2024-01-15T08:00:00Z" }

def nutA : Nutrition :=
  { calories := 95, protein := 1/2, carbs := 25, fat := 3/10, fiber := some (22/5) }

def nutB : Nutrition :=
  { calories := 105, protein := 13/10, carbs := 27, fat := 2/5, fiber := some (31/10) }

/-- C1: `calculateTotalNutrition` is element-wise addition with absent
optional fields read as 0, rounded per the rounding rule (calories and
sodium to nearest integer, gram fields to one decimal place), and the
result always carries fiber, sugar and sodium (they are `some _`, 0 by
default); in particular on two entries each rounded field is the rounding
of the two-term sum. -/
theorem c1_sum_elementwise (foods : List MealFoodEntry) (a b : Nutrition)
    (ha : NutNonneg a) (hb : NutNonneg b) :
    calculateTotalNutrition foods =
      { calories := ((mathRound ((foods.map (fun f => f.nutrition.calories)).sum) : ℤ) : ℚ)
        protein := round1dp ((foods.map (fun f => f.nutrition.protein)).sum)
        carbs := round1dp ((foods.map (fun f => f.nutrition.carbs)).sum)
        fat := round1dp ((foods.map (fun f => f.nutrition.fat)).sum)
        fiber := some (round1dp ((foods.map (fun f => orZero f.nutrition.fiber)).sum))
        sugar := some (round1dp ((foods.map (fun f => orZero f.nutrition.sugar)).sum))
        sodium := some ((mathRound ((foods.map (fun f => orZero f.nutrition.sodium)).sum) : ℤ) : ℚ) } ∧
    calculateTotalNutrition [mkEntry a, mkEntry b] =
      { calories := ((mathRound (a.calories + b.calories) : ℤ) : ℚ)
        protein := round1dp (a.protein + b.protein)
        carbs := round1dp (a.carbs + b.carbs)
        fat := round1dp (a.fat + b.fat)
        fiber := some (round1dp (orZero a.fiber + orZero b.fiber))
        sugar := some (round1dp (orZero a.sugar + orZero b.sugar))
        sodium := some ((mathRound (orZero a.sodium + orZero b.sodium) : ℤ) : ℚ) } := by
  constructor
  · exact calculateTotalNutrition_eq foods
  · rw [calculateTotalNutrition_eq]
    simp [mkEntry]

/-- Witness for C1 at the two fruit entries of the repository's unit
tests. -/
theorem c1_sum_elementwise_witness :
    NutNonneg nutA ∧ NutNonneg nutB ∧
    calculateTotalNutrition [mkEntry nutA, mkEntry nutB] =
      { calories := ((mathRound (nutA.calories + nutB.calories) : ℤ) : ℚ)
        protein := round1dp (nutA.protein + nutB.protein)
        carbs := round1dp (nutA.carbs + nutB.carbs)
        fat := round1dp (nutA.fat + nutB.fat)
        fiber := some (round1dp (orZero nutA.fiber + orZero nutB.fiber))
        sugar := some (round1dp (orZero nutA.sugar + orZero nutB.sugar))
        sodium := some ((mathRound (orZero nutA.sodium + orZero nutB.sodium) : ℤ) : ℚ) } :=
  ⟨by norm_num [NutNonneg, nutA, orZero],
   by norm_num [NutNonneg, nutB, orZero],
   (c1_sum_elementwise [] nutA nutB
      (by norm_num [NutNonneg, nutA, orZero])
      (by norm_num [NutNonneg, nutB, orZero])).2⟩

/-- C10: daily totals and goal progress are recomputed from the meals'
`foods` entries; two meal lists agreeing pairwise on `foods` and
`mealType` (with arbitrary stored `totals`) give the same `totals` and
the same `goalProgress`. -/
theorem c10_totals_from_foods (meals1 meals2 : List Meal) (d : ℤ)
    (g : Option Goals)
    (h : List.Forall₂
      (fun m1 m2 => m1.foods = m2.foods ∧ m1.mealType = m2.mealType)
      meals1 meals2) :
    (calculateDailySummary meals1 d g).totals =
      (calculateDailySummary meals2 d g).totals ∧
    (calculateDailySummary meals1 d g).goalProgress =
      (calculateDailySummary meals2 d g).goalProgress := by
  have hfoods : meals1.flatMap (fun m => m.foods) =
      meals2.flatMap (fun m => m.foods) := by
    induction h with
    | nil => rfl
    | cons h1 h2 ih => simp [h1.1, ih]
  have htot : aggregateMealsNutrition meals1 = aggregateMealsNutrition meals2 := by
    unfold aggregateMealsNutrition
    rw [hfoods]
  constructor
  · rw [calculateDailySummary_totals, calculateDailySummary_totals, htot]
  · cases g with
    | none => rfl
    | some gv => simp only [calculateDailySummary, htot]

def nut600 : Nutrition := { calories := 600, protein := 30, carbs := 60, fat := 20 }

def mealX : Meal :=
  mkMeal "meal-x" (isoDate 2024 1 15) "lunch" [mkEntry nut600] nut600

/-- Same foods and meal type as `mealX`, but corrupted stored totals. -/
def mealXbad : Meal :=
  mkMeal "meal-x2" (isoDate 2024 1 15) "lunch" [mkEntry nut600]
    { calories := 9999, protein := 1, carbs := 2, fat := 3 }

/-- Witness for C10: a meal and its stored-totals-corrupted variant give
identical daily totals and goal progress. -/
theorem c10_totals_from_foods_witness :
    List.Forall₂
      (fun m1 m2 => m1.foods = m2.foods ∧ m1.mealType = m2.mealType)
      [mealX] [mealXbad] ∧
    (calculateDailySummary [mealX] (isoDate 2024 1 15)
        (some { dailyCalories := 2000 })).totals =
      (calculateDailySummary [mealXbad] (isoDate 2024 1 15)
        (some { dailyCalories := 2000 })).totals ∧
    (calculateDailySummary [mealX] (isoDate 2024 1 15)
        (some { dailyCalories := 2000 })).goalProgress =
      (calculateDailySummary [mealXbad] (isoDate 2024 1 15)
        (some { dailyCalories := 2000 })).goalProgress :=
  ⟨List.forall₂_cons.mpr ⟨⟨rfl, rfl⟩, List.Forall₂.nil⟩,
   c10_totals_from_foods [mealX] [mealXbad] (isoDate 2024 1 15)
     (some { dailyCalories := 2000 })
     (List.forall₂_cons.mpr ⟨⟨rfl, rfl⟩, List.Forall₂.nil⟩)⟩

def nut3000 : Nutrition := { calories := 3000, protein := 30, carbs := 60, fat := 20 }

def meal3000 : Meal :=
  mkMeal "meal-big" (isoDate 2024 1 15) "dinner" [mkEntry nut3000] nut3000

def goals2000 : Goals := { dailyCalories := 2000 }

/-- C6: goal progress reports `percentage = round(current / goal * 100)`
without clamping (it reaches 150 on a 3000-kcal day against a 2000-kcal
goal), zero current gives 0, a macro Progress entry is emitted only when
that macro's goal is present, and 600 kcal against a 2000-kcal goal gives
30. -/
theorem c6_goal_progress (meals : List Meal) (d : ℤ) (g : Goals)
    (hcur : 0 ≤ (aggregateMealsNutrition meals).calories)
    (hgoal : 0 < g.dailyCalories) :
    (∃ gp : GoalProgress,
      (calculateDailySummary meals d (some g)).goalProgress = some gp ∧
      gp.calories = Progress.mk (aggregateMealsNutrition meals).calories
        g.dailyCalories
        (mathRound ((aggregateMealsNutrition meals).calories /
          g.dailyCalories * 100)) ∧
      ((aggregateMealsNutrition meals).calories = 0 →
        gp.calories.percentage = 0) ∧
      (gp.protein.isSome = true → g.protein ≠ none) ∧
      (gp.carbs.isSome = true → g.carbs ≠ none) ∧
      (gp.fat.isSome = true → g.fat ≠ none)) ∧
    (calculateDailySummary [mealX] (isoDate 2024 1 15)
        (some goals2000)).goalProgress.map (fun gp => gp.calories.percentage) =
      some 30 ∧
    (calculateDailySummary [meal3000] (isoDate 2024 1 15)
        (some goals2000)).goalProgress.map (fun gp => gp.calories.percentage) =
      some 150 := by
  refine ⟨⟨_, rfl, rfl, ?_, ?_, ?_, ?_⟩, ?_, ?_⟩
  · intro h0
    simp only [h0, zero_div, zero_mul, mathRound, round_zero]
  · intro hs
    cases hq : g.protein with
    | none =>
      rw [hq] at hs
      simp [truthy] at hs
    | some q => simp [hq]
  · intro hs
    cases hq : g.carbs with
    | none =>
      rw [hq] at hs
      simp [truthy] at hs
    | some q => simp [hq]
  · intro hs
    cases hq : g.fat with
    | none =>
      rw [hq] at hs
      simp [truthy] at hs
    | some q => simp [hq]
  · norm_num [calculateDailySummary, aggregateMealsNutrition,
      calculateTotalNutrition_eq, mealX, mkMeal, mkEntry, nut600, goals2000,
      mathRound, round_eq, orZero]
  · norm_num [calculateDailySummary, aggregateMealsNutrition,
      calculateTotalNutrition_eq, meal3000, mkMeal, mkEntry, nut3000, goals2000,
      mathRound, round_eq, orZero]

/-- Witness for C6: instantiate at the 600-kcal day against the
2000-kcal goal set. -/
theorem c6_goal_progress_witness :
    0 ≤ (aggregateMealsNutrition [mealX]).calories ∧
    0 < goals2000.dailyCalories ∧
    (∃ gp : GoalProgress,
      (calculateDailySummary [mealX] (isoDate 2024 1 15)
        (some goals2000)).goalProgress = some gp ∧
      gp.calories = Progress.mk (aggregateMealsNutrition [mealX]).calories
        goals2000.dailyCalories
        (mathRound ((aggregateMealsNutrition [mealX]).calories /
          goals2000.dailyCalories * 100)) ∧
      ((aggregateMealsNutrition [mealX]).calories = 0 →
        gp.calories.percentage = 0) ∧
      (gp.protein.isSome = true → goals2000.protein ≠ none) ∧
      (gp.carbs.isSome = true → goals2000.carbs ≠ none) ∧
      (gp.fat.isSome = true → goals2000.fat ≠ none)) :=
  ⟨by
    norm_num [aggregateMealsNutrition, calculateTotalNutrition_eq, mealX,
      mkMeal, mkEntry, nut600, mathRound, round_eq],
   by norm_num [goals2000],
   (c6_goal_progress [mealX] (isoDate 2024 1 15) goals2000
      (by
        norm_num [aggregateMealsNutrition, calculateTotalNutrition_eq, mealX,
          mkMeal, mkEntry, nut600, mathRound, round_eq])
      (by norm_num [goals2000])).1⟩

def nut500 : Nutrition := { calories := 500, protein := 20, carbs := 60, fat := 15 }

def nut700 : Nutrition := { calories := 700, protein := 30, carbs := 80, fat := 20 }

def meal500 : Meal :=
  mkMeal "meal-1" (isoDate 2024 1 15) "breakfast" [mkEntry nut500] nut500

def meal700 : Meal :=
  mkMeal "meal-2" (isoDate 2024 1 16) "lunch" [mkEntry nut700] nut700

theorem calculateWeeklyReport_totalMeals (meals : List Meal) (s e : ℤ)
    (g : Option Goals) :
    (calculateWeeklyReport meals s e g).totalMeals = meals.length := rfl

theorem calculateWeeklyReport_averages (meals : List Meal) (s e : ℤ)
    (g : Option Goals) :
    (calculateWeeklyReport meals s e g).averages =
      weeklyAverages (aggregateMealsNutrition meals)
        (daysWithMealsOf (calculateWeeklyReport meals s e g).dailySummaries) := rfl

/-- C2: the weekly report has exactly one daily summary per calendar day
of the range, in ascending date order, each built from exactly the meals
dated that day, and `totalMeals` is the unfiltered input count; on the
two-meal 2024-01-15/16 input over the range 01-15..01-17 it has three
summaries dated 01-15, 01-16, 01-17 in order, average calories 600, and
`totalMeals` 2. -/
theorem c2_weekly_report (meals : List Meal) (s e : ℤ) (g : Option Goals)
    (hse : s ≤ e) :
    (calculateWeeklyReport meals s e g).dailySummaries =
      (List.range (e + 1 - s).toNat).map
        (fun i : ℕ => calculateDailySummary
          (meals.filter (fun m => m.date == s + (i : ℤ))) (s + (i : ℤ)) g) ∧
    (calculateWeeklyReport meals s e g).totalMeals = meals.length ∧
    (calculateWeeklyReport [meal500, meal700] (isoDate 2024 1 15)
        (isoDate 2024 1 17) none).dailySummaries.map (fun d => d.date) =
      [isoDate 2024 1 15, isoDate 2024 1 16, isoDate 2024 1 17] ∧
    (calculateWeeklyReport [meal500, meal700] (isoDate 2024 1 15)
        (isoDate 2024 1 17) none).averages.calories = 600 ∧
    (calculateWeeklyReport [meal500, meal700] (isoDate 2024 1 15)
        (isoDate 2024 1 17) none).totalMeals = 2 := by
  have h3 : (isoDate 2024 1 17 + 1 - isoDate 2024 1 15).toNat = 3 := by decide
  have hsum : (calculateWeeklyReport [meal500, meal700] (isoDate 2024 1 15)
      (isoDate 2024 1 17) none).dailySummaries =
      [calculateDailySummary [meal500] (isoDate 2024 1 15 + ((0 : ℕ) : ℤ)) none,
       calculateDailySummary [meal700] (isoDate 2024 1 15 + ((1 : ℕ) : ℤ)) none,
       calculateDailySummary [] (isoDate 2024 1 15 + ((2 : ℕ) : ℤ)) none] := by
    rw [calculateWeeklyReport_dailySummaries, h3,
      show List.range 3 = [0, 1, 2] from rfl]
    rfl
  refine ⟨calculateWeeklyReport_dailySummaries meals s e g, rfl, ?_, ?_, rfl⟩
  · rw [hsum]
    simp only [List.map_cons, List.map_nil, calculateDailySummary_date]
    decide
  · rw [calculateWeeklyReport_averages, hsum]
    have hdays : daysWithMealsOf
        [calculateDailySummary [meal500] (isoDate 2024 1 15 + ((0 : ℕ) : ℤ)) none,
         calculateDailySummary [meal700] (isoDate 2024 1 15 + ((1 : ℕ) : ℤ)) none,
         calculateDailySummary [] (isoDate 2024 1 15 + ((2 : ℕ) : ℤ)) none] = 2 := by
      simp [daysWithMealsOf, List.filter_cons, List.filter_nil,
        decide_eq_true_eq, calculateDailySummary_meals_length_pos]
    rw [hdays]
    norm_num [weeklyAverages, aggregateMealsNutrition, calculateTotalNutrition_eq,
      meal500, meal700, mkMeal, mkEntry, nut500, nut700, mathRound, round_eq]

/-- Witness for C2: the 2024-01-15..17 instance, with the range bound
discharged concretely. -/
theorem c2_weekly_report_witness :
    isoDate 2024 1 15 ≤ isoDate 2024 1 17 ∧
    (calculateWeeklyReport [meal500, meal700] (isoDate 2024 1 15)
        (isoDate 2024 1 17) none).dailySummaries.map (fun d => d.date) =
      [isoDate 2024 1 15, isoDate 2024 1 16, isoDate 2024 1 17] ∧
    (calculateWeeklyReport [meal500, meal700] (isoDate 2024 1 15)
        (isoDate 2024 1 17) none).averages.calories = 600 ∧
    (calculateWeeklyReport [meal500, meal700] (isoDate 2024 1 15)
        (isoDate 2024 1 17) none).totalMeals = 2 :=
  ⟨by decide,
   (c2_weekly_report [] (isoDate 2024 1 15) (isoDate 2024 1 17) none
     (by decide)).2.2.1,
   (c2_weekly_report [] (isoDate 2024 1 15) (isoDate 2024 1 17) none
     (by decide)).2.2.2.1,
   (c2_weekly_report [] (isoDate 2024 1 15) (isoDate 2024 1 17) none
     (by decide)).2.2.2.2⟩

theorem foldl_add_calories (l : List Meal) :
    ∀ s : ℚ, l.foldl (fun s m => s + m.totals.calories) s =
      s + (l.map (fun m => m.totals.calories)).sum := by
  induction l with
  | nil =>
    intro s
    simp
  | cons m l ih =>
    intro s
    rw [List.foldl_cons, ih, List.map_cons, List.sum_cons, add_assoc]

/-- C7: the per-meal-type entries of a daily summary are grouped by
`mealType` in first-seen order over the input sequence, and each entry
carries the sum of its group's stored `meal.totals.calories` values and
the group size. -/
theorem c7_group_first_seen (meals : List Meal) (d : ℤ) (g : Option Goals) :
    (calculateDailySummary meals d g).meals =
      (firstSeenKeys (meals.map (fun m => m.mealType))).map
        (fun t => MealTypeSummary.mk t
          (((meals.filter (fun m => m.mealType == t)).map
            (fun m => m.totals.calories)).sum)
          (meals.filter (fun m => m.mealType == t)).length) := by
  rw [calculateDailySummary_meals, groupByKey_eq, List.map_map]
  apply List.map_congr_left
  intro t ht
  simp only [Function.comp_apply]
  rw [foldl_add_calories, zero_add]

def nutB2 : Nutrition := { calories := 450, protein := 25, carbs := 45, fat := 18 }

/-- A second breakfast meal, logged after the lunch meal. -/
def mealB2 : Meal :=
  mkMeal "meal-3" (isoDate 2024 1 15) "breakfast" [mkEntry nutB2] nutB2

/-- Witness for C7: breakfast, lunch, breakfast groups to breakfast
(950 kcal from stored totals, 2 meals) then lunch (700 kcal, 1 meal), in
first-seen order. -/
theorem c7_group_first_seen_witness :
    (calculateDailySummary [meal500, meal700, mealB2]
        (isoDate 2024 1 15) none).meals =
      [MealTypeSummary.mk "breakfast" 950 2, MealTypeSummary.mk "lunch" 700 1] := by
  rw [c7_group_first_seen [meal500, meal700, mealB2] (isoDate 2024 1 15) none]
  rw [show firstSeenKeys ([meal500, meal700, mealB2].map (fun m => m.mealType))
      = ["breakfast", "lunch"] from rfl]
  rw [List.map_cons, List.map_cons, List.map_nil]
  rw [show [meal500, meal700, mealB2].filter (fun m => m.mealType == "breakfast")
      = [meal500, mealB2] from rfl]
  rw [show [meal500, meal700, mealB2].filter (fun m => m.mealType == "lunch")
      = [meal700] from rfl]
  norm_num [meal500, meal700, mealB2, mkMeal, nut500, nut700, nutB2]

/-- The zero nutrient vector with zero-filled optional fields, as
produced by summing an empty food list. -/
def zeroFilledTotals : Nutrition :=
  { calories := 0, protein := 0, carbs := 0, fat := 0,
    fiber := some 0, sugar := some 0, sodium := some 0 }

/-- Counterexample to C4 as stated: `aggregateMeals([])` does NOT leave
the optional fields absent — the sum zero-fills them, so the empty
aggregate has `fiber = some 0` (and likewise sugar and sodium), not
`none`. -/
theorem c4_empty_counterexample :
    (aggregateMealsNutrition []).fiber = some 0 ∧
    (aggregateMealsNutrition []).sugar = some 0 ∧
    (aggregateMealsNutrition []).sodium = some 0 ∧
    ¬((aggregateMealsNutrition []).fiber = none) := by
  have hz : aggregateMealsNutrition [] = zeroFilledTotals := by
    rw [aggregateMealsNutrition,
      show (([] : List Meal).flatMap (fun m => m.foods)) = [] from rfl,
      calculateTotalNutrition_eq]
    norm_num [round1dp, mathRound, round_eq, zeroFilledTotals]
  rw [hz]
  refine ⟨rfl, rfl, rfl, by simp [zeroFilledTotals]⟩

/-- C4 amended: empty inputs are not errors; `aggregateMeals([])` is the
zero vector with fiber, sugar and sodium PRESENT as 0 (sum zero-fills
them), and `buildDailySummary([], date)` without goals has those
zero-filled totals, an empty per-meal-type list and no goal progress. -/
theorem c4_empty_amended :
    aggregateMealsNutrition [] = zeroFilledTotals ∧
    (∀ d : ℤ, calculateDailySummary [] d none =
      { date := d, totals := zeroFilledTotals, meals := [],
        goalProgress := none }) := by
  have hz : aggregateMealsNutrition [] = zeroFilledTotals := by
    rw [aggregateMealsNutrition,
      show (([] : List Meal).flatMap (fun m => m.foods)) = [] from rfl,
      calculateTotalNutrition_eq]
    norm_num [round1dp, mathRound, round_eq, zeroFilledTotals]
  refine ⟨hz, fun d => ?_⟩
  simp [calculateDailySummary, groupByKey, hz]

def nutZeroFiber : Nutrition :=
  { calories := 100, protein := 10, carbs := 20, fat := 5, fiber := some 0 }

/-- Counterexample to C5 as stated: a fiber field PRESENT with value 0 is
dropped by `scaleNutrition` (JavaScript truthiness), so presence is not
preserved. -/
theorem c5_scale_counterexample :
    nutZeroFiber.fiber = some 0 ∧
    (scaleNutrition nutZeroFiber 2).fiber = none := by
  refine ⟨rfl, ?_⟩
  simp [scaleNutrition, nutZeroFiber, truthy]

/-- C5 amended: `scale` multiplies every field by the factor and rounds
(calories and sodium to integers, gram fields to one decimal place);
absent optional fields stay absent, present NONZERO optional fields stay
present, but a present optional field equal to 0 becomes absent
(truthiness check). -/
theorem c5_scale_amended (v : Nutrition) (f : ℚ) (hf : 0 < f) :
    (scaleNutrition v f).calories = ((mathRound (v.calories * f) : ℤ) : ℚ) ∧
    (scaleNutrition v f).protein = round1dp (v.protein * f) ∧
    (scaleNutrition v f).carbs = round1dp (v.carbs * f) ∧
    (scaleNutrition v f).fat = round1dp (v.fat * f) ∧
    (v.fiber = none → (scaleNutrition v f).fiber = none) ∧
    (∀ q : ℚ, v.fiber = some q → q ≠ 0 →
      (scaleNutrition v f).fiber = some (round1dp (q * f))) ∧
    (v.fiber = some 0 → (scaleNutrition v f).fiber = none) ∧
    (v.sugar = none → (scaleNutrition v f).sugar = none) ∧
    (∀ q : ℚ, v.sugar = some q → q ≠ 0 →
      (scaleNutrition v f).sugar = some (round1dp (q * f))) ∧
    (v.sugar = some 0 → (scaleNutrition v f).sugar = none) ∧
    (v.sodium = none → (scaleNutrition v f).sodium = none) ∧
    (∀ q : ℚ, v.sodium = some q → q ≠ 0 →
      (scaleNutrition v f).sodium = some ((mathRound (q * f) : ℤ) : ℚ)) ∧
    (v.sodium = some 0 → (scaleNutrition v f).sodium = none) := by
  refine ⟨rfl, rfl, rfl, rfl, ?_, ?_, ?_, ?_, ?_, ?_, ?_, ?_, ?_⟩
  · intro h
    simp [scaleNutrition, truthy, h]
  · intro q h hq
    simp [scaleNutrition, truthy, h, hq, orZero]
  · intro h
    simp [scaleNutrition, truthy, h]
  · intro h
    simp [scaleNutrition, truthy, h]
  · intro q h hq
    simp [scaleNutrition, truthy, h, hq, orZero]
  · intro h
    simp [scaleNutrition, truthy, h]
  · intro h
    simp [scaleNutrition, truthy, h]
  · intro q h hq
    simp [scaleNutrition, truthy, h, hq, orZero]
  · intro h
    simp [scaleNutrition, truthy, h]

/-- Witness for C5 amended: scaling the apple vector by 2 keeps its
nonzero fiber present and its absent sugar absent. -/
theorem c5_scale_amended_witness :
    (0 : ℚ) < 2 ∧
    (scaleNutrition nutA 2).fiber = some (round1dp (22/5 * 2)) ∧
    (scaleNutrition nutA 2).sugar = none :=
  ⟨by norm_num,
   (c5_scale_amended nutA 2 (by norm_num)).2.2.2.2.2.1 (22/5) rfl (by norm_num),
   (c5_scale_amended nutA 2 (by norm_num)).2.2.2.2.2.2.2.1 rfl⟩

/-- Counterexample to C3 as stated: `calculateWeeklyReport` has no range
validation and no error channel at all — on `startDate > endDate` it
returns a perfectly normal `WeeklyReport` (empty summaries, zero
averages, unswapped bounds, full meal count) instead of signalling a
validation error. -/
theorem c3_invalid_range_counterexample :
    calculateWeeklyReport [meal500] (isoDate 2024 1 17) (isoDate 2024 1 15)
        none =
      { startDate := isoDate 2024 1 17, endDate := isoDate 2024 1 15,
        dailySummaries := [], averages := zeroAverages, totalMeals := 1 } := by
  rfl

/-- C3 amended: on `startDate > endDate` the function does not iterate
(no daily summaries) and does not swap the bounds, but it does NOT
signal a validation error: it returns a normal report with empty
`dailySummaries`, the zero `averages` vector and the unfiltered meal
count. -/
theorem c3_invalid_range_amended (meals : List Meal) (s e : ℤ)
    (g : Option Goals) (h : e < s) :
    calculateWeeklyReport meals s e g =
      { startDate := s, endDate := e, dailySummaries := [],
        averages := zeroAverages, totalMeals := meals.length } := by
  have h0 : (e + 1 - s).toNat = 0 := by omega
  simp only [calculateWeeklyReport, h0, weekLoop, daysWithMealsOf,
    List.filter_nil, List.length_nil, weeklyAverages]
  norm_num

/-- Witness for C3 amended: the reversed 2024-01-17..2024-01-15 range. -/
theorem c3_invalid_range_witness :
    isoDate 2024 1 15 < isoDate 2024 1 17 ∧
    calculateWeeklyReport [meal500, meal700] (isoDate 2024 1 17)
        (isoDate 2024 1 15) none =
      { startDate := isoDate 2024 1 17, endDate := isoDate 2024 1 15,
        dailySummaries := [], averages := zeroAverages, totalMeals := 2 } :=
  ⟨by decide,
   c3_invalid_range_amended [meal500, meal700] (isoDate 2024 1 17)
     (isoDate 2024 1 15) none (by decide)⟩

/-- Counterexample to C8 as stated: the un-averaged total always carries
`fiber` (zero-filled by the sum), yet on a one-meal day with no fiber the
averages OMIT fiber — presence in the total does not carry over to the
averages when the total's value is 0 (truthiness). -/
theorem c8_averages_counterexample :
    (aggregateMealsNutrition [meal500]).fiber = some 0 ∧
    (calculateWeeklyReport [meal500] (isoDate 2024 1 15) (isoDate 2024 1 15)
        none).averages.fiber = none := by
  have htot : aggregateMealsNutrition [meal500] =
      { calories := 500, protein := 20, carbs := 60, fat := 15,
        fiber := some 0, sugar := some 0, sodium := some 0 } := by
    rw [aggregateMealsNutrition,
      show ([meal500].flatMap (fun m => m.foods)) = [mkEntry nut500] from rfl,
      calculateTotalNutrition_eq]
    norm_num [mkEntry, nut500, round1dp, mathRound, round_eq, orZero]
  refine ⟨by rw [htot], ?_⟩
  rw [calculateWeeklyReport_averages]
  have hsum1 : (calculateWeeklyReport [meal500] (isoDate 2024 1 15)
      (isoDate 2024 1 15) none).dailySummaries =
      [calculateDailySummary [meal500] (isoDate 2024 1 15 + ((0 : ℕ) : ℤ)) none] := by
    rw [calculateWeeklyReport_dailySummaries,
      show (isoDate 2024 1 15 + 1 - isoDate 2024 1 15).toNat = 1 from by decide,
      show List.range 1 = [0] from rfl]
    rfl
  rw [hsum1]
  have hd : daysWithMealsOf [calculateDailySummary [meal500]
      (isoDate 2024 1 15 + ((0 : ℕ) : ℤ)) none] = 1 := by
    simp [daysWithMealsOf, List.filter_cons, List.filter_nil,
      decide_eq_true_eq, calculateDailySummary_meals_length_pos]
  rw [hd, htot]
  simp [weeklyAverages, truthy]

/-- C8 amended: `daysWithMeals` counts the days of the range having at
least one matching meal; with zero such days the averages are the
all-zero vector with optional fields omitted, and with `D > 0` days each
field of the aggregate of ALL input meals is divided by `D` and rounded,
an optional averaged field being PRESENT exactly when the aggregated
field is truthy (nonzero) — not merely present, since the zero-filled
aggregate is always present. -/
theorem c8_averages_amended (meals : List Meal) (s e : ℤ) (g : Option Goals)
    (hse : s ≤ e) :
    (calculateWeeklyReport meals s e g).averages =
      weeklyAverages (aggregateMealsNutrition meals)
        (((List.range (e + 1 - s).toNat).filter
          (fun i : ℕ => !(meals.filter
            (fun m => m.date == s + (i : ℤ))).isEmpty)).length) ∧
    (((List.range (e + 1 - s).toNat).filter
        (fun i : ℕ => !(meals.filter
          (fun m => m.date == s + (i : ℤ))).isEmpty)).length = 0 →
      (calculateWeeklyReport meals s e g).averages = zeroAverages) ∧
    (∀ D : ℕ, 0 < D →
      weeklyAverages (aggregateMealsNutrition meals) D =
        { calories := ((mathRound ((aggregateMealsNutrition meals).calories / D) : ℤ) : ℚ)
          protein := round1dp ((aggregateMealsNutrition meals).protein / D)
          carbs := round1dp ((aggregateMealsNutrition meals).carbs / D)
          fat := round1dp ((aggregateMealsNutrition meals).fat / D)
          fiber := if truthy (aggregateMealsNutrition meals).fiber then
              some (round1dp (orZero (aggregateMealsNutrition meals).fiber / D))
            else none
          sugar := if truthy (aggregateMealsNutrition meals).sugar then
              some (round1dp (orZero (aggregateMealsNutrition meals).sugar / D))
            else none
          sodium := if truthy (aggregateMealsNutrition meals).sodium then
              some ((mathRound (orZero (aggregateMealsNutrition meals).sodium / D) : ℤ) : ℚ)
            else none }) := by
  have hD : daysWithMealsOf (calculateWeeklyReport meals s e g).dailySummaries =
      ((List.range (e + 1 - s).toNat).filter
        (fun i : ℕ => !(meals.filter
          (fun m => m.date == s + (i : ℤ))).isEmpty)).length := by
    rw [calculateWeeklyReport_dailySummaries]
    unfold daysWithMealsOf
    rw [← List.countP_eq_length_filter, ← List.countP_eq_length_filter,
      List.countP_map]
    apply List.countP_congr
    intro i hi
    simp [calculateDailySummary_meals_length_pos, List.isEmpty_iff]
  refine ⟨?_, ?_, ?_⟩
  · rw [calculateWeeklyReport_averages, hD]
  · intro h0
    rw [calculateWeeklyReport_averages, hD, h0]
    simp [weeklyAverages, zeroAverages]
  · intro D hDpos
    simp [weeklyAverages, hDpos]

/-- Witness for C8 amended: the single-day 500-kcal instance. -/
theorem c8_averages_witness :
    isoDate 2024 1 15 ≤ isoDate 2024 1 15 ∧
    (calculateWeeklyReport [meal500] (isoDate 2024 1 15) (isoDate 2024 1 15)
        none).averages =
      weeklyAverages (aggregateMealsNutrition [meal500])
        (((List.range (isoDate 2024 1 15 + 1 - isoDate 2024 1 15).toNat).filter
          (fun i : ℕ => !([meal500].filter
            (fun m => m.date == isoDate 2024 1 15 + (i : ℤ))).isEmpty)).length) :=
  ⟨by decide,
   (c8_averages_amended [meal500] (isoDate 2024 1 15) (isoDate 2024 1 15) none
     (by decide)).1⟩

def goals600 : Goals := { dailyCalories := 600 }

def nut796 : Nutrition := { calories := 796, protein := 30, carbs := 60, fat := 20 }

def meal796 : Meal :=
  mkMeal "meal-796" (isoDate 2024 1 15) "lunch" [mkEntry nut796] nut796

def goals1000 : Goals := { dailyCalories := 1000 }

/-- Counterexample to C9 as stated, at two concrete inputs.  First, on a
1-day report whose only day has meals, days-with-meals equals the total
days in the range, yet the "logged on N of D days" reminder IS emitted
(the code compares against a hardcoded 7, not the range length) — and it
says "1 of 7 days".  Second, on a 796-kcal average against a 1000-kcal
goal the average IS strictly below 80% of the goal, yet the under-target
message is NOT emitted: the code rounds the percentage first
(`round(79.6) = 80`) and issues the on-target affirmation instead. -/
theorem c9_insights_counterexample :
    daysWithMealsOf (calculateWeeklyReport [mealX] (isoDate 2024 1 15)
        (isoDate 2024 1 15) none).dailySummaries =
      (calculateWeeklyReport [mealX] (isoDate 2024 1 15)
        (isoDate 2024 1 15) none).dailySummaries.length ∧
    generateInsights (calculateWeeklyReport [mealX] (isoDate 2024 1 15)
        (isoDate 2024 1 15) none) goals600 =
      [reminderMsg 1, onTargetMsg 600] ∧
    (calculateWeeklyReport [meal796] (isoDate 2024 1 15) (isoDate 2024 1 15)
        none).averages.calories < 80 / 100 * goals1000.dailyCalories ∧
    generateInsights (calculateWeeklyReport [meal796] (isoDate 2024 1 15)
        (isoDate 2024 1 15) none) goals1000 =
      [reminderMsg 1, onTargetMsg 1000] := by
  have hsum1 : (calculateWeeklyReport [mealX] (isoDate 2024 1 15)
      (isoDate 2024 1 15) none).dailySummaries =
      [calculateDailySummary [mealX] (isoDate 2024 1 15 + ((0 : ℕ) : ℤ)) none] := by
    rw [calculateWeeklyReport_dailySummaries,
      show (isoDate 2024 1 15 + 1 - isoDate 2024 1 15).toNat = 1 from by decide,
      show List.range 1 = [0] from rfl]
    rfl
  have hfil : [calculateDailySummary [mealX]
      (isoDate 2024 1 15 + ((0 : ℕ) : ℤ)) none].filter
        (fun d => decide (0 < d.meals.length)) =
      [calculateDailySummary [mealX] (isoDate 2024 1 15 + ((0 : ℕ) : ℤ)) none] := by
    simp [List.filter_cons, decide_eq_true_eq,
      calculateDailySummary_meals_length_pos]
  have hd : daysWithMealsOf [calculateDailySummary [mealX]
      (isoDate 2024 1 15 + ((0 : ℕ) : ℤ)) none] = 1 := by
    unfold daysWithMealsOf
    rw [hfil]
    rfl
  have htot : aggregateMealsNutrition [mealX] =
      { calories := 600, protein := 30, carbs := 60, fat := 20,
        fiber := some 0, sugar := some 0, sodium := some 0 } := by
    rw [aggregateMealsNutrition,
      show ([mealX].flatMap (fun m => m.foods)) = [mkEntry nut600] from rfl,
      calculateTotalNutrition_eq]
    norm_num [mkEntry, nut600, round1dp, mathRound, round_eq, orZero]
  have havg : (calculateWeeklyReport [mealX] (isoDate 2024 1 15)
      (isoDate 2024 1 15) none).averages.calories = 600 := by
    rw [calculateWeeklyReport_averages, hsum1, hd, htot]
    norm_num [weeklyAverages, mathRound, round_eq]
  have hsum2 : (calculateWeeklyReport [meal796] (isoDate 2024 1 15)
      (isoDate 2024 1 15) none).dailySummaries =
      [calculateDailySummary [meal796] (isoDate 2024 1 15 + ((0 : ℕ) : ℤ)) none] := by
    rw [calculateWeeklyReport_dailySummaries,
      show (isoDate 2024 1 15 + 1 - isoDate 2024 1 15).toNat = 1 from by decide,
      show List.range 1 = [0] from rfl]
    rfl
  have hfil2 : [calculateDailySummary [meal796]
      (isoDate 2024 1 15 + ((0 : ℕ) : ℤ)) none].filter
        (fun d => decide (0 < d.meals.length)) =
      [calculateDailySummary [meal796] (isoDate 2024 1 15 + ((0 : ℕ) : ℤ)) none] := by
    simp [List.filter_cons, decide_eq_true_eq,
      calculateDailySummary_meals_length_pos]
  have hd2 : daysWithMealsOf [calculateDailySummary [meal796]
      (isoDate 2024 1 15 + ((0 : ℕ) : ℤ)) none] = 1 := by
    unfold daysWithMealsOf
    rw [hfil2]
    rfl
  have htot2 : aggregateMealsNutrition [meal796] =
      { calories := 796, protein := 30, carbs := 60, fat := 20,
        fiber := some 0, sugar := some 0, sodium := some 0 } := by
    rw [aggregateMealsNutrition,
      show ([meal796].flatMap (fun m => m.foods)) = [mkEntry nut796] from rfl,
      calculateTotalNutrition_eq]
    norm_num [mkEntry, nut796, round1dp, mathRound, round_eq, orZero]
  have havg2 : (calculateWeeklyReport [meal796] (isoDate 2024 1 15)
      (isoDate 2024 1 15) none).averages.calories = 796 := by
    rw [calculateWeeklyReport_averages, hsum2, hd2, htot2]
    norm_num [weeklyAverages, mathRound, round_eq]
  refine ⟨?_, ?_, ?_, ?_⟩
  · rw [hsum1, hd]
    rfl
  · simp only [generateInsights]
    rw [hsum1, hd, havg]
    norm_num [goals600, mathRound, round_eq, hfil]
    intro h3
    have hle := List.length_filter_le (fun d => decide (0 < d.meals.length))
      [calculateDailySummary [mealX] (isoDate 2024 1 15) none]
    simp only [List.length_cons, List.length_nil] at hle
    exact absurd h3 (by omega)
  · rw [havg2]
    norm_num [goals1000]
  · simp only [generateInsights]
    rw [hsum2, hd2, havg2]
    norm_num [goals1000, mathRound, round_eq, hfil2]
    intro h3
    have hle := List.length_filter_le (fun d => decide (0 < d.meals.length))
      [calculateDailySummary [meal796] (isoDate 2024 1 15) none]
    simp only [List.length_cons, List.length_nil] at hle
    exact absurd h3 (by omega)

/-- C9 amended: the insights are, in order, a "logged on N of 7 days"
reminder exactly when days-with-meals is below the HARDCODED 7 (not the
range length); then exactly one calorie message chosen by the ROUNDED
percentage `round(avg / goal * 100)` — under-target when it is below 80,
over-target when above 120, on-target otherwise; and a consistency
warning naming `max - min` of the daily calories over days-with-meals
when at least 3 days have meals and that spread exceeds 1000. -/
theorem c9_insights_amended (r : WeeklyReport) (g : Goals) :
    generateInsights r g =
      (if daysWithMealsOf r.dailySummaries < 7 then
        [reminderMsg (daysWithMealsOf r.dailySummaries)] else []) ++
      (if mathRound (r.averages.calories / g.dailyCalories * 100) < 80 then
        [belowGoalMsg r.averages.calories
          (mathRound (r.averages.calories / g.dailyCalories * 100))]
      else if mathRound (r.averages.calories / g.dailyCalories * 100) > 120 then
        [aboveGoalMsg r.averages.calories
          (mathRound (r.averages.calories / g.dailyCalories * 100))]
      else [onTargetMsg g.dailyCalories]) ++
      (if 3 ≤ daysWithMealsOf r.dailySummaries then
        (if 1000 < maxList ((r.dailySummaries.filter
              (fun d => decide (0 < d.meals.length))).map
                (fun d => d.totals.calories)) -
            minList ((r.dailySummaries.filter
              (fun d => decide (0 < d.meals.length))).map
                (fun d => d.totals.calories)) then
          [varianceMsg (maxList ((r.dailySummaries.filter
              (fun d => decide (0 < d.meals.length))).map
                (fun d => d.totals.calories)) -
            minList ((r.dailySummaries.filter
              (fun d => decide (0 < d.meals.length))).map
                (fun d => d.totals.calories)))]
        else [])
      else []) := by
  simp only [generateInsights, daysWithMealsOf, List.length_map]

def meal3000d17 : Meal :=
  mkMeal "meal-4" (isoDate 2024 1 17) "dinner" [mkEntry nut3000] nut3000

/-- Witness for C9 amended: a 3-day report (500 / 700 / 3000 kcal)
against a 2000-kcal goal produces the reminder (3 < 7), the under-target
message (70% of goal) and the consistency warning (spread 2500). -/
theorem c9_insights_amended_witness :
    generateInsights (calculateWeeklyReport [meal500, meal700, meal3000d17]
        (isoDate 2024 1 15) (isoDate 2024 1 17) none) goals2000 =
      [reminderMsg 3, belowGoalMsg 1400 70, varianceMsg 2500] := by
  have hsum3 : (calculateWeeklyReport [meal500, meal700, meal3000d17]
      (isoDate 2024 1 15) (isoDate 2024 1 17) none).dailySummaries =
      [calculateDailySummary [meal500] (isoDate 2024 1 15 + ((0 : ℕ) : ℤ)) none,
       calculateDailySummary [meal700] (isoDate 2024 1 15 + ((1 : ℕ) : ℤ)) none,
       calculateDailySummary [meal3000d17] (isoDate 2024 1 15 + ((2 : ℕ) : ℤ)) none] := by
    rw [calculateWeeklyReport_dailySummaries,
      show (isoDate 2024 1 17 + 1 - isoDate 2024 1 15).toNat = 3 from by decide,
      show List.range 3 = [0, 1, 2] from rfl]
    rfl
  have hfil3 : [calculateDailySummary [meal500] (isoDate 2024 1 15 + ((0 : ℕ) : ℤ)) none,
       calculateDailySummary [meal700] (isoDate 2024 1 15 + ((1 : ℕ) : ℤ)) none,
       calculateDailySummary [meal3000d17] (isoDate 2024 1 15 + ((2 : ℕ) : ℤ)) none].filter
        (fun d => decide (0 < d.meals.length)) =
      [calculateDailySummary [meal500] (isoDate 2024 1 15 + ((0 : ℕ) : ℤ)) none,
       calculateDailySummary [meal700] (isoDate 2024 1 15 + ((1 : ℕ) : ℤ)) none,
       calculateDailySummary [meal3000d17] (isoDate 2024 1 15 + ((2 : ℕ) : ℤ)) none] := by
    simp [List.filter_cons, decide_eq_true_eq,
      calculateDailySummary_meals_length_pos]
  have hd3 : daysWithMealsOf [calculateDailySummary [meal500]
      (isoDate 2024 1 15 + ((0 : ℕ) : ℤ)) none,
      calculateDailySummary [meal700] (isoDate 2024 1 15 + ((1 : ℕ) : ℤ)) none,
      calculateDailySummary [meal3000d17] (isoDate 2024 1 15 + ((2 : ℕ) : ℤ)) none] = 3 := by
    unfold daysWithMealsOf
    rw [hfil3]
    rfl
  have ht0 : (calculateDailySummary [meal500]
      (isoDate 2024 1 15 + ((0 : ℕ) : ℤ)) none).totals.calories = 500 := by
    rw [calculateDailySummary_totals, aggregateMealsNutrition,
      show ([meal500].flatMap (fun m => m.foods)) = [mkEntry nut500] from rfl,
      calculateTotalNutrition_eq]
    norm_num [mkEntry, nut500, mathRound, round_eq]
  have ht1 : (calculateDailySummary [meal700]
      (isoDate 2024 1 15 + ((1 : ℕ) : ℤ)) none).totals.calories = 700 := by
    rw [calculateDailySummary_totals, aggregateMealsNutrition,
      show ([meal700].flatMap (fun m => m.foods)) = [mkEntry nut700] from rfl,
      calculateTotalNutrition_eq]
    norm_num [mkEntry, nut700, mathRound, round_eq]
  have ht2 : (calculateDailySummary [meal3000d17]
      (isoDate 2024 1 15 + ((2 : ℕ) : ℤ)) none).totals.calories = 3000 := by
    rw [calculateDailySummary_totals, aggregateMealsNutrition,
      show ([meal3000d17].flatMap (fun m => m.foods)) = [mkEntry nut3000] from rfl,
      calculateTotalNutrition_eq]
    norm_num [mkEntry, nut3000, mathRound, round_eq]
  have htott : aggregateMealsNutrition [meal500, meal700, meal3000d17] =
      { calories := 4200, protein := 80, carbs := 200, fat := 55,
        fiber := some 0, sugar := some 0, sodium := some 0 } := by
    rw [aggregateMealsNutrition,
      show ([meal500, meal700, meal3000d17].flatMap (fun m => m.foods)) =
        [mkEntry nut500, mkEntry nut700, mkEntry nut3000] from rfl,
      calculateTotalNutrition_eq]
    norm_num [mkEntry, nut500, nut700, nut3000, round1dp, mathRound, round_eq,
      orZero]
  have havg : (calculateWeeklyReport [meal500, meal700, meal3000d17]
      (isoDate 2024 1 15) (isoDate 2024 1 17) none).averages.calories = 1400 := by
    rw [calculateWeeklyReport_averages, hsum3, hd3, htott]
    norm_num [weeklyAverages, mathRound, round_eq]
  have hmax : maxList [(500 : ℚ), 700, 3000] = 3000 := by
    simp only [maxList, List.foldl_cons, List.foldl_nil]
    rw [max_eq_right (by norm_num : (500 : ℚ) ≤ 700),
      max_eq_right (by norm_num : (700 : ℚ) ≤ 3000)]
  have hmin : minList [(500 : ℚ), 700, 3000] = 500 := by
    simp only [minList, List.foldl_cons, List.foldl_nil]
    rw [min_eq_left (by norm_num : (500 : ℚ) ≤ 700),
      min_eq_left (by norm_num : (500 : ℚ) ≤ 3000)]
  rw [c9_insights_amended, hsum3, hd3, hfil3, havg,
    List.map_cons, List.map_cons, List.map_cons, List.map_nil,
    ht0, ht1, ht2, hmax, hmin]
  norm_num [goals2000, mathRound, round_eq]
